import Mathlib

/-!
Shallow embedding of the mod_passenger Apache module core
(`src/ext/apache2/Hooks.cpp` together with the `ApplicationPool` interface of
`src/ext/apache2/ApplicationPool.h`).

C strings and `std::string` values are modelled as `List Char`; machine
integers that the claims depend on (`Content-Length` via `atol`, errno codes)
are modelled as `Int`.  Interactions with the host server (Apache) and with
the out-of-process application pool are modelled as explicit inputs: the
filesystem is a decidable predicate on paths, and the outcome of
`ApplicationPool::get` is an input datum, since the pool implementation lives
outside this repository.  `handleRequest` additionally returns the ordered
trace of session-related actions it performs, so that ordering properties
(upload buffering before pool acquisition) can be stated.
-/

namespace Passenger

/-- Byte strings: C strings and C++ `std::string`s are lists of characters. -/
abbrev Str := List Char

/-- Shorthand to write a modelled byte string from a Lean string literal. -/
def str (s : String) : Str := s.toList

/-- The NUL byte used as separator in the header wire format. -/
def nulChar : Char := Char.ofNat 0

/-- The ASCII apostrophe (39), used in the diagnostic page texts. -/
def apostrophe : Char := Char.ofNat 39


/-! ### Header serialization (`Hooks::sendHeaders`, lines 462-501)

`sendHeaders` appends, for every (key, value) entry of the header table,
`key NUL value NUL` to the buffer and finally appends the sentinel pair
`"_\0_\0"`.  The in-worker deserializer splits the buffer on NUL in the style
of Ruby's `String#split`, which drops trailing empty fields. -/

/-- The per-entry serialization loop of `sendHeaders`: each key and each value
is followed by one NUL byte. -/
def serializeHeaderPairs : List (Str × Str) → Str
  | [] => []
  | p :: ps => p.1 ++ nulChar :: p.2 ++ nulChar :: serializeHeaderPairs ps

/-- The sentinel pair appended at the end of the header buffer. -/
def headerSentinel : Str := ['_', nulChar, '_', nulChar]

/-- The complete header buffer passed to `Session::sendHeaders`. -/
def sendHeadersBuffer (pairs : List (Str × Str)) : Str :=
  serializeHeaderPairs pairs ++ headerSentinel

/-- Reference splitter on NUL, first phase: split into fields at every NUL
byte, keeping interior empty fields. -/
def splitNul : Str → List Str
  | [] => [[]]
  | c :: cs =>
    if c = nulChar then [] :: splitNul cs
    else
      match splitNul cs with
      | [] => [[c]]
      | f :: rest => (c :: f) :: rest

/-- Second phase of the reference splitter: Ruby's `String#split` drops all
trailing empty fields. -/
def dropTrailingEmptyFields (fields : List Str) : List Str :=
  (fields.reverse.dropWhile (fun f => f.isEmpty)).reverse

/-- The reference splitter-on-NUL (the behaviour of `data.split("\0")` in the
in-worker request handler, as documented in the comment of `sendHeaders`). -/
def referenceSplit (s : Str) : List Str :=
  dropTrailingEmptyFields (splitNul s)

/-- The flat field sequence corresponding to a pair list: each pair
contributes its name and then its value. -/
def fieldList : List (Str × Str) → List Str
  | [] => []
  | p :: ps => p.1 :: p.2 :: fieldList ps

/-- Re-pair a flat field sequence into (name, value) pairs, consuming two
fields at a time (the in-worker parser builds a hash the same way). -/
def unflattenPairs : List Str → List (Str × Str)
  | a :: b :: rest => (a, b) :: unflattenPairs rest
  | _ => []


/-! ### Directory mapper (`DirectoryMapper`, lines 76-267) -/

/-- The tri-state of the per-directory auto-detection and mod_rewrite
configuration flags (`DirConfig::ENABLED` / `DISABLED` / `UNSET`). -/
inductive TriState where
  | enabled
  | disabled
  | unset
deriving DecidableEq

/-- `DirectoryMapper::ApplicationType`, without the `NONE` placeholder (a
resolved base URI always carries one of the three concrete types). -/
inductive AppType where
  | rails
  | rack
  | wsgi
deriving DecidableEq

/-- The part of the per-directory configuration that the mapper and the
map-to-storage hook read. -/
structure DirConfig where
  railsBaseURIs : List Str
  rackBaseURIs : List Str
  autoDetectRails : TriState
  autoDetectRack : TriState
  autoDetectWSGI : TriState
  allowModRewrite : TriState
deriving DecidableEq

/-- Per-request inputs of the mapper: the request URI, the document root and
the outcomes of the three directory probes.

The probe functions `verifyRailsDir`, `verifyRackDir` and `verifyWSGIDir` are
not part of this repository (they live in `Utils.h`).  Modelled from the spec:
each probes the document root for that type's marker files, so each is an
input boolean here. -/
structure MapperEnv where
  uri : Str
  documentRoot : Str
  railsDirValid : Bool
  rackDirValid : Bool
  wsgiDirValid : Bool
deriving DecidableEq

/-- `DirectoryMapper::shouldAutoDetectRails` (lines 92-95). -/
def shouldAutoDetectRails (c : DirConfig) : Bool :=
  decide (c.autoDetectRails = TriState.enabled) ||
  decide (c.autoDetectRails = TriState.unset)

/-- `DirectoryMapper::shouldAutoDetectRack` (lines 97-100). -/
def shouldAutoDetectRack (c : DirConfig) : Bool :=
  decide (c.autoDetectRack = TriState.enabled) ||
  decide (c.autoDetectRack = TriState.unset)

/-- `DirectoryMapper::shouldAutoDetectWSGI` (lines 102-105). -/
def shouldAutoDetectWSGI (c : DirConfig) : Bool :=
  decide (c.autoDetectWSGI = TriState.enabled) ||
  decide (c.autoDetectWSGI = TriState.unset)

/-- The base-URI match condition of `getBaseURI` (lines 150-153 and 164-167):
the base equals `"/"`, or the URI equals the base (`uri_len == base.size`
plus `memcmp` over the whole length), or the base is a shorter `memcmp`-equal
segment of the URI and the next URI character is `'/'`. -/
def matchesBaseURI (uri base : Str) : Bool :=
  decide (base = str "/") ||
  (decide (uri.length = base.length) && decide (uri = base)) ||
  (decide (base.length < uri.length) && base.isPrefixOf uri &&
    decide (uri.get? base.length = some '/'))

/-- `DirectoryMapper::getBaseURI` (lines 134-197): reject URIs that are empty
or do not start with `'/'`; otherwise scan the configured Rails base URIs,
then the Rack base URIs, for the first match; otherwise auto-detect Rails,
then Rack, then WSGI against the document root; otherwise NULL. -/
def getBaseURI (config : DirConfig) (env : MapperEnv) : Option (Str × AppType) :=
  if env.uri.length = 0 ∨ env.uri.get? 0 ≠ some '/' then
    none
  else
    match config.railsBaseURIs.find? (fun base => matchesBaseURI env.uri base) with
    | some base => some (base, AppType.rails)
    | none =>
      match config.rackBaseURIs.find? (fun base => matchesBaseURI env.uri base) with
      | some base => some (base, AppType.rack)
      | none =>
        if shouldAutoDetectRails config && env.railsDirValid then
          some (str "/", AppType.rails)
        else if shouldAutoDetectRack config && env.rackDirValid then
          some (str "/", AppType.rack)
        else if shouldAutoDetectWSGI config && env.wsgiDirValid then
          some (str "/", AppType.wsgi)
        else
          none

/-- `DirectoryMapper::getPublicDirectory` (lines 208-232): empty string if no
base URI was resolved or the document root is empty; otherwise the document
root with one trailing `'/'` stripped, with the base URI appended when the
base URI is not `"/"`. -/
def getPublicDirectory (config : DirConfig) (env : MapperEnv) : Str :=
  match getBaseURI config env with
  | none => []
  | some (baseURI, _) =>
    let docRoot := env.documentRoot
    if docRoot.length > 0 then
      let path := if docRoot.get? (docRoot.length - 1) = some '/' then
          docRoot.dropLast
        else
          docRoot
      if baseURI ≠ str "/" then path ++ baseURI else path
    else
      []

/-- Modelled from the spec (the claim's own wording of the match condition,
used for the refinement statement about `getBaseURI`): the base equals `"/"`,
or the base equals the whole URI, or the base is a proper prefix of the URI
with the next URI character being `'/'`. -/
def specMatchesBase (uri base : Str) : Bool :=
  decide (base = str "/") ||
  decide (base = uri) ||
  (base.isPrefixOf uri && decide (base.length < uri.length) &&
    decide (uri.get? base.length = some '/'))

/-- Modelled from the spec (the resolver contract as the claim words it, with
no restriction on the URI shape): first matching configured Rails base URI,
failing that first matching Rack base URI, failing that auto-detection probes
in the order Rails, Rack, WSGI returning `"/"` with that type, otherwise not
an application request. -/
def resolveBaseURISpec (config : DirConfig) (env : MapperEnv) : Option (Str × AppType) :=
  match config.railsBaseURIs.find? (fun base => specMatchesBase env.uri base) with
  | some base => some (base, AppType.rails)
  | none =>
    match config.rackBaseURIs.find? (fun base => specMatchesBase env.uri base) with
    | some base => some (base, AppType.rack)
    | none =>
      if shouldAutoDetectRails config && env.railsDirValid then
        some (str "/", AppType.rails)
      else if shouldAutoDetectRack config && env.rackDirValid then
        some (str "/", AppType.rack)
      else if shouldAutoDetectWSGI config && env.wsgiDirValid then
        some (str "/", AppType.wsgi)
      else
        none


/-! ### The map-to-storage hook (`Hooks::mapToStorage`, lines 774-860) -/

/-- The candidate page-cache file of `mapToStorage` (lines 789-797): the
filename with `"index.html"` appended when the filename ends in `'/'`, and
with `".html"` appended otherwise. -/
def staticHtmlFile (filename : Str) : Str :=
  if filename.length > 0 ∧ filename.get? (filename.length - 1) = some '/' then
    filename ++ str "index.html"
  else
    filename ++ str ".html"

/-- An Apache hook return value relevant to `mapToStorage`: take over the
request (`OK`) or let Apache's default processing continue (`DECLINED`). -/
inductive MapReturn where
  | ok
  | declined
deriving DecidableEq

/-- Inputs of one `mapToStorage` call.  `fileExists` is the filesystem probe
of `Utils.h` (a total predicate here; the `FileSystemException` catch clause,
which turns a probe failure into `DECLINED`, is not needed by the claims). -/
structure MapEnv where
  config : DirConfig
  mapper : MapperEnv
  filename : Str
  fileExists : Str → Bool
  isGetRequest : Bool

/-- Result of `mapToStorage`: the value of its `forwardToApplication`
variable, the final `r->filename` (possibly rewritten to the page-cache
file), and the hook return value. -/
structure MapOutcome where
  forwardToApplication : Bool
  filename : Str
  returnValue : MapReturn
deriving DecidableEq

/-- `Hooks::mapToStorage` (lines 774-860).  An unresolved base URI or an
existing file declines at once (static assets are served directly, whatever
the request method); for GET requests an existing `.html`/`index.html`
variant rewrites the filename and declines; everything else forwards to the
application, where the hook takes over (`OK`) when mod_rewrite protection
applies to a Rails app or the URI is exactly the base URI. -/
def mapToStorage (env : MapEnv) : MapOutcome :=
  match getBaseURI env.config env.mapper with
  | none =>
    { forwardToApplication := false, filename := env.filename,
      returnValue := MapReturn.declined }
  | some (baseURI, appType) =>
    if env.fileExists env.filename then
      { forwardToApplication := false, filename := env.filename,
        returnValue := MapReturn.declined }
    else
      let forwardResult : MapOutcome :=
        { forwardToApplication := true, filename := env.filename,
          returnValue :=
            if env.config.allowModRewrite ≠ TriState.enabled ∧
                appType = AppType.rails then
              MapReturn.ok
            else if env.mapper.uri = baseURI then
              MapReturn.ok
            else
              MapReturn.declined }
      if env.isGetRequest then
        if env.fileExists (staticHtmlFile env.filename) then
          { forwardToApplication := false, filename := staticHtmlFile env.filename,
            returnValue := MapReturn.declined }
        else
          forwardResult
      else
        forwardResult


/-! ### The request handler (`Hooks::handleRequest`, lines 630-772) -/

/-- The data carried by a `FileSystemException` raised while classifying the
request: the probed filename, the error message, and the errno code. -/
structure FileSystemExceptionData where
  filename : Str
  message : Str
  code : Int
deriving DecidableEq

/-- The POSIX `EPERM` errno value tested by `reportFileSystemError`. -/
def EPERM : Int := 1

/-- Outcome of the `applicationPool->get(...)` call, which is implemented
outside this repository (`ApplicationPool.h` declares it to return a session
or throw `SpawnException` — optionally carrying an HTML error page — or
`BusyException`). -/
inductive PoolOutcome where
  | ok (pid : Nat)
  | spawnError (errorPage : Option Str)
  | busy
deriving DecidableEq

/-- Session-related actions of one `handleRequest` run, in program order.
`receiveBody data` is a completed `receiveRequestBody` call: the whole
request body `data` written to a fresh `TempFile`. -/
inductive Event where
  | receiveBody (data : Str)
  | poolGet
  | sendHeadersEv
  | sendBodyFromTempFile (data : Str)
  | sendBodyFromClient
  | shutdownWriter
deriving DecidableEq

/-- What `handleRequest` returns to Apache: `DECLINED`; `OK` after writing a
response body itself (Apache then sends status 200 with that body); a plain
HTTP status code, possibly with a custom response text registered via
`ap_custom_response`; or `OK` after forwarding the request to worker `pid`. -/
inductive HandleResult where
  | declined
  | okWithBody (contentType : Str) (body : Str)
  | httpStatus (status : Nat) (customResponse : Option Str)
  | okForwarded (pid : Nat)
deriving DecidableEq

/-- The HTTP status Apache ends up sending for a handler outcome: a handler
that returns `OK` leaves `r->status` at its default 200, a returned status
code is sent as-is; `DECLINED` produces no response from this module (0). -/
def responseStatus : HandleResult → Nat
  | HandleResult.declined => 0
  | HandleResult.okWithBody _ _ => 200
  | HandleResult.httpStatus s _ => s
  | HandleResult.okForwarded _ => 200

/-- `UPLOAD_ACCELERATION_THRESHOLD` (line 64): `1024 * 8` bytes. -/
def uploadAccelerationThreshold : Int := 1024 * 8

/-- Inputs of one `handleRequest` call.  `contentLength` is
`atol(lookupHeader(r, "Content-Length"))`; `clientBody` is the full request
body the client will send; `clientReadError` makes `ap_get_client_block`
fail; `pool` is the outcome of the out-of-process `ApplicationPool::get`. -/
structure RequestEnv where
  config : DirConfig
  mapper : MapperEnv
  filename : Option Str
  fileExists : Str → Bool
  publicDirFsError : Option FileSystemExceptionData
  setupClientBlockStatus : Nat
  shouldClientBlock : Bool
  contentLength : Int
  clientBody : Str
  clientReadError : Bool
  pool : PoolOutcome

/-- Apache's `ap_escape_html` (host-server utility applied to the diagnostic
texts): escape `<`, `>`, `&` and the double quote. -/
def escapeHtml : Str → Str
  | [] => []
  | c :: rest =>
    (if c = '<' then str "&lt;"
     else if c = '>' then str "&gt;"
     else if c = '&' then str "&amp;"
     else if c = Char.ofNat 34 then str "&quot;"
     else [c]) ++ escapeHtml rest

/-- The content type set by `reportDocumentRootDeterminationError` and
`reportFileSystemError` (lines 309, 316). -/
def contentTypeHtmlUpper : Str := str "text/html; charset=UTF-8"

/-- The content type set for the spawn-error page (line 703). -/
def contentTypeHtmlLower : Str := str "text/html; charset=utf-8"

/-- The body written by `reportDocumentRootDeterminationError` (310-311). -/
def documentRootErrorBody : Str :=
  str "<h1>Passenger error #1</h1>\n" ++
  str "Cannot determine the document root for the current request."

/-- The EPERM hint of `reportFileSystemError` (lines 323-326). -/
def fileSystemErrorHint : Str :=
  str "<p>" ++
  str "Apache doesn" ++ [apostrophe] ++ str "t have read permissions to that file. " ++
  str "Please fix the relevant file permissions." ++
  str "</p>"

/-- The body written by `reportFileSystemError` (lines 317-327): the escaped
filename and error message in a fixed frame, plus the hint when the errno
code is `EPERM`. -/
def reportFileSystemErrorBody (e : FileSystemExceptionData) : Str :=
  str "<h1>Passenger error #2</h1>\n" ++
  str "An error occurred while trying to access " ++ [apostrophe] ++
  escapeHtml e.filename ++ [apostrophe] ++ str ": " ++
  escapeHtml e.message ++
  (if e.code = EPERM then fileSystemErrorHint else [])

/-- The custom response registered by `reportBusyException` (lines 332-333). -/
def busyMessage : Str :=
  str "This website is too busy right now.  Please try again later."

/-- `Hooks::receiveRequestBody` (lines 505-529): read the whole client body
into a temp file; fail if reading fails or if the byte count written differs
from the advertised `Content-Length`. -/
def receiveRequestBody (env : RequestEnv) : Except Unit Str :=
  if env.clientReadError then
    Except.error ()
  else if (env.clientBody.length : Int) ≠ env.contentLength then
    Except.error ()
  else
    Except.ok env.clientBody

/-- The tail of `handleRequest` from the `applicationPool->get` call on
(lines 696-751), given the buffered upload data (if any) and the events
already performed.  A spawn error with an error page is served as an `OK`
text/html response; a bare spawn error and other failures become 500;
`BusyException` becomes 503 with the busy message; on success the headers and
the body (from the temp file or straight from the client) are sent and the
writer side is shut down. -/
def afterUpload (env : RequestEnv) (uploadData : Option Str) (events : List Event) :
    HandleResult × List Event :=
  match env.pool with
  | PoolOutcome.spawnError (some page) =>
    (HandleResult.okWithBody contentTypeHtmlLower page, events ++ [Event.poolGet])
  | PoolOutcome.spawnError none =>
    (HandleResult.httpStatus 500 none, events ++ [Event.poolGet])
  | PoolOutcome.busy =>
    (HandleResult.httpStatus 503 (some busyMessage), events ++ [Event.poolGet])
  | PoolOutcome.ok pid =>
    if env.shouldClientBlock then
      match uploadData with
      | some data =>
        (HandleResult.okForwarded pid,
          events ++ [Event.poolGet, Event.sendHeadersEv,
            Event.sendBodyFromTempFile data, Event.shutdownWriter])
      | none =>
        if env.clientReadError then
          (HandleResult.httpStatus 500 none,
            events ++ [Event.poolGet, Event.sendHeadersEv, Event.sendBodyFromClient])
        else
          (HandleResult.okForwarded pid,
            events ++ [Event.poolGet, Event.sendHeadersEv,
              Event.sendBodyFromClient, Event.shutdownWriter])
    else
      (HandleResult.okForwarded pid,
        events ++ [Event.poolGet, Event.sendHeadersEv, Event.shutdownWriter])

/-- `Hooks::handleRequest` (lines 630-772).  Decline when no base URI
resolves, the filename is NULL, or the file exists; report a filesystem error
or an undeterminable document root while classifying; propagate a failed
`ap_setup_client_block`; buffer the whole body to a temp file first when a
body is expected and the advertised length exceeds the upload-acceleration
threshold; then acquire a session and stream the request. -/
def handleRequest (env : RequestEnv) : HandleResult × List Event :=
  match getBaseURI env.config env.mapper with
  | none => (HandleResult.declined, [])
  | some _ =>
    match env.filename with
    | none => (HandleResult.declined, [])
    | some filename =>
      if env.fileExists filename then
        (HandleResult.declined, [])
      else
        match env.publicDirFsError with
        | some e =>
          (HandleResult.okWithBody contentTypeHtmlUpper (reportFileSystemErrorBody e), [])
        | none =>
          if getPublicDirectory env.config env.mapper = [] then
            (HandleResult.okWithBody contentTypeHtmlUpper documentRootErrorBody, [])
          else if env.setupClientBlockStatus ≠ 0 then
            (HandleResult.httpStatus env.setupClientBlockStatus none, [])
          else if env.shouldClientBlock ∧ env.contentLength > uploadAccelerationThreshold then
            match receiveRequestBody env with
            | Except.error _ => (HandleResult.httpStatus 500 none, [])
            | Except.ok data => afterUpload env (some data) [Event.receiveBody data]
          else
            afterUpload env none []


/-! ### The CGI variable table of `sendHeaders` (lines 405-460) -/

/-- `Hooks::addHeader` (lines 405-409): append the pair only when both the
name and the value are non-NULL. -/
def addHeader (table : List (Str × Str)) (name : Option Str) (value : Option Str) :
    List (Str × Str) :=
  match name, value with
  | some n, some v => table ++ [(n, v)]
  | _, _ => table

/-- `Hooks::http2env` (lines 340-353): prepend `"HTTP_"`, replace `'-'` by
`'_'` and upcase the rest. -/
def http2env (name : Str) : Str :=
  str "HTTP_" ++ name.map (fun c => if c = '-' then '_' else c.toUpper)

/-- The request-derived values `sendHeaders` consults when building the CGI
variable table.  A `none` models a NULL pointer (no authenticated user, no
`HTTPS` subprocess-env entry, no `Content-Type` header, ...).  `serverPort`,
`remotePort` and `requestUri` come from `apr_psprintf`/`originalURI` and are
never NULL; `queryArgs` is defaulted to the empty string at the call site
(`r->args ? r->args : ""`). -/
structure CgiEnv where
  serverSoftware : Option Str
  protocol : Option Str
  serverName : Option Str
  serverAdmin : Option Str
  localIp : Option Str
  serverPort : Str
  remoteIp : Option Str
  remotePort : Str
  user : Option Str
  requestMethod : Option Str
  requestUri : Str
  queryArgs : Option Str
  https : Option Str
  contentType : Option Str
  documentRoot : Option Str
  pathInfo : Option Str
  headersIn : List (Option Str × Option Str)
  subprocessEnv : List (Option Str × Option Str)

/-- The header-table construction of `sendHeaders` (lines 418-460): the fixed
CGI variables in program order (`SCRIPT_NAME` only when the base URI is not
`"/"`), then every request header under its `HTTP_` name (headers with a NULL
key are skipped by the loop, lines 446-450), then the subprocess environment
verbatim. -/
def buildHeaderTable (env : CgiEnv) (baseURI : Str) : List (Str × Str) :=
  let t := addHeader [] (some (str "SERVER_SOFTWARE")) env.serverSoftware
  let t := addHeader t (some (str "SERVER_PROTOCOL")) env.protocol
  let t := addHeader t (some (str "SERVER_NAME")) env.serverName
  let t := addHeader t (some (str "SERVER_ADMIN")) env.serverAdmin
  let t := addHeader t (some (str "SERVER_ADDR")) env.localIp
  let t := addHeader t (some (str "SERVER_PORT")) (some env.serverPort)
  let t := addHeader t (some (str "REMOTE_ADDR")) env.remoteIp
  let t := addHeader t (some (str "REMOTE_PORT")) (some env.remotePort)
  let t := addHeader t (some (str "REMOTE_USER")) env.user
  let t := addHeader t (some (str "REQUEST_METHOD")) env.requestMethod
  let t := addHeader t (some (str "REQUEST_URI")) (some env.requestUri)
  let t := addHeader t (some (str "QUERY_STRING")) (some (env.queryArgs.getD []))
  let t := if baseURI ≠ str "/" then
      addHeader t (some (str "SCRIPT_NAME")) (some baseURI)
    else
      t
  let t := addHeader t (some (str "HTTPS")) env.https
  let t := addHeader t (some (str "CONTENT_TYPE")) env.contentType
  let t := addHeader t (some (str "DOCUMENT_ROOT")) env.documentRoot
  let t := addHeader t (some (str "PATH_INFO")) env.pathInfo
  let t := env.headersIn.foldl
    (fun t kv =>
      match kv.1 with
      | some k => addHeader t (some (http2env k)) kv.2
      | none => t)
    t
  env.subprocessEnv.foldl (fun t kv => addHeader t kv.1 kv.2) t

/-- The full list of (name, value) candidates `sendHeaders` consults, in
program order, values kept optional: the fixed CGI variables, the renamed
request headers, the subprocess environment. -/
def consultedVariables (env : CgiEnv) (baseURI : Str) : List (Option Str × Option Str) :=
  [(some (str "SERVER_SOFTWARE"), env.serverSoftware),
   (some (str "SERVER_PROTOCOL"), env.protocol),
   (some (str "SERVER_NAME"), env.serverName),
   (some (str "SERVER_ADMIN"), env.serverAdmin),
   (some (str "SERVER_ADDR"), env.localIp),
   (some (str "SERVER_PORT"), some env.serverPort),
   (some (str "REMOTE_ADDR"), env.remoteIp),
   (some (str "REMOTE_PORT"), some env.remotePort),
   (some (str "REMOTE_USER"), env.user),
   (some (str "REQUEST_METHOD"), env.requestMethod),
   (some (str "REQUEST_URI"), some env.requestUri),
   (some (str "QUERY_STRING"), some (env.queryArgs.getD []))] ++
  (if baseURI ≠ str "/" then [(some (str "SCRIPT_NAME"), some baseURI)] else []) ++
  [(some (str "HTTPS"), env.https),
   (some (str "CONTENT_TYPE"), env.contentType),
   (some (str "DOCUMENT_ROOT"), env.documentRoot),
   (some (str "PATH_INFO"), env.pathInfo)] ++
  env.headersIn.map (fun kv => (kv.1.map http2env, kv.2)) ++
  env.subprocessEnv

/-- Keep a consulted candidate only when both its name and its value are
available. -/
def presentPair : Option Str × Option Str → Option (Str × Str)
  | (some n, some v) => some (n, v)
  | _ => none



/-! ### Concrete request instances used by the witnesses and counterexamples -/

/-- A per-directory configuration with one configured Rails base URI `"/"`
and auto-detection disabled. -/
def rootRailsConfig : DirConfig :=
  { railsBaseURIs := [str "/"], rackBaseURIs := [],
    autoDetectRails := TriState.disabled, autoDetectRack := TriState.disabled,
    autoDetectWSGI := TriState.disabled, allowModRewrite := TriState.unset }

/-- A per-directory configuration with one configured Rails base URI
`"/rails"` and auto-detection disabled. -/
def subdirRailsConfig : DirConfig :=
  { railsBaseURIs := [str "/rails"], rackBaseURIs := [],
    autoDetectRails := TriState.disabled, autoDetectRack := TriState.disabled,
    autoDetectWSGI := TriState.disabled, allowModRewrite := TriState.unset }

/-- Mapper inputs for a plain request below `"/"`. -/
def uploadMapper : MapperEnv :=
  { uri := str "/upload", documentRoot := str "/var/www",
    railsDirValid := false, rackDirValid := false, wsgiDirValid := false }

/-- Mapper inputs for a request whose URI (`"*"`, as sent by `OPTIONS *`)
does not begin with `'/'`; all probes report valid directories. -/
def starMapper : MapperEnv :=
  { uri := str "*", documentRoot := str "/var/www",
    railsDirValid := true, rackDirValid := true, wsgiDirValid := true }

/-- Mapper inputs for a request below the `"/rails"` base URI, with a
document root carrying a trailing slash. -/
def subdirMapper : MapperEnv :=
  { uri := str "/rails/posts", documentRoot := str "/var/www/",
    railsDirValid := false, rackDirValid := false, wsgiDirValid := false }

/-- A non-GET `mapToStorage` call whose resolved filesystem path exists. -/
def postExistingFileMapEnv : MapEnv :=
  { config := rootRailsConfig, mapper := uploadMapper,
    filename := str "/var/www/upload", fileExists := fun _ => true,
    isGetRequest := false }

/-- A non-GET `mapToStorage` call whose resolved filesystem path does not
exist. -/
def postMissingFileMapEnv : MapEnv :=
  { config := rootRailsConfig, mapper := uploadMapper,
    filename := str "/var/www/upload", fileExists := fun _ => false,
    isGetRequest := false }

/-- A baseline `handleRequest` input that passes all classification guards:
base URI `"/"` resolves, the file does not exist, the document root is known,
`ap_setup_client_block` succeeds, no body is expected, and the pool returns a
worker. -/
def baseRequestEnv : RequestEnv :=
  { config := rootRailsConfig, mapper := uploadMapper,
    filename := some (str "/var/www/upload"), fileExists := fun _ => false,
    publicDirFsError := none, setupClientBlockStatus := 0,
    shouldClientBlock := false, contentLength := 0, clientBody := [],
    clientReadError := false, pool := PoolOutcome.ok 4242 }

/-- A `handleRequest` input whose URI does not begin with `'/'`. -/
def starRequestEnv : RequestEnv :=
  { baseRequestEnv with mapper := starMapper }

/-- A `handleRequest` input expecting an 8193-byte body (one byte above the
upload-acceleration threshold). -/
def bigUploadRequestEnv : RequestEnv :=
  { baseRequestEnv with
    shouldClientBlock := true, contentLength := 8193,
    clientBody := List.replicate 8193 'a' }

/-- A `handleRequest` input expecting an 8192-byte body (exactly the
upload-acceleration threshold). -/
def smallUploadRequestEnv : RequestEnv :=
  { baseRequestEnv with
    shouldClientBlock := true, contentLength := 8192,
    clientBody := List.replicate 8192 'a' }

/-- A `FileSystemException` with errno `EPERM`, as raised while classifying
a request against an unreadable file. -/
def epermException : FileSystemExceptionData :=
  { filename := str "/var/www/config/environment.rb",
    message := str "Permission denied", code := EPERM }

/-- A `handleRequest` input whose classification raises a filesystem
error. -/
def fsErrorRequestEnv : RequestEnv :=
  { baseRequestEnv with publicDirFsError := some epermException }

/-- A `handleRequest` input for which `ApplicationPool::get` raises a
`SpawnException` carrying an error page. -/
def spawnErrorPageRequestEnv : RequestEnv :=
  { baseRequestEnv with
    pool := PoolOutcome.spawnError (some (str "<html>spawn failed</html>")) }

/-- A `handleRequest` input for which `ApplicationPool::get` raises
`BusyException`. -/
def busyRequestEnv : RequestEnv :=
  { baseRequestEnv with pool := PoolOutcome.busy }


/-- Request values for a CGI-table witness: no authenticated user, no
`HTTPS` subprocess-env entry, no Content-Type header; one ordinary request
header and one ordinary subprocess-env entry. -/
def anonymousCgiEnv : CgiEnv :=
  { serverSoftware := some (str "Apache/2.2"), protocol := some (str "HTTP/1.1"),
    serverName := some (str "example.com"), serverAdmin := none,
    localIp := some (str "127.0.0.1"), serverPort := str "80",
    remoteIp := some (str "10.0.0.1"), remotePort := str "5000",
    user := none, requestMethod := some (str "GET"),
    requestUri := str "/upload", queryArgs := none,
    https := none, contentType := none,
    documentRoot := some (str "/var/www"), pathInfo := some (str "/upload"),
    headersIn := [(some (str "Host"), some (str "example.com"))],
    subprocessEnv := [(some (str "RAILS_ENV"), some (str "production"))] }

/-! ## Theorems -/

theorem splitNul_ne_nil (s : Str) : splitNul s ≠ [] := by
  induction s with
  | nil => simp [splitNul]
  | cons c cs ih =>
    simp only [splitNul]
    split
    · simp
    · match h : splitNul cs with
      | [] => simp
      | f :: rest => simp

theorem splitNul_append_nul (a l : Str) (h : nulChar ∉ a) :
    splitNul (a ++ nulChar :: l) = a :: splitNul l := by
  induction a with
  | nil => simp [splitNul]
  | cons c cs ih =>
    have hc : ¬(c = nulChar) := fun hcc => h (hcc ▸ List.mem_cons_self c cs)
    have hcs : nulChar ∉ cs := fun hm => h (List.mem_cons_of_mem c hm)
    simp only [List.cons_append, splitNul, if_neg hc, List.append_eq, ih hcs]

theorem splitNul_sendHeadersBuffer (pairs : List (Str × Str))
    (h : ∀ p ∈ pairs, nulChar ∉ p.1 ∧ nulChar ∉ p.2) :
    splitNul (sendHeadersBuffer pairs) = fieldList pairs ++ [['_'], ['_'], []] := by
  induction pairs with
  | nil => decide
  | cons p ps ih =>
    have hp := h p (List.mem_cons_self p ps)
    have hps : ∀ q ∈ ps, nulChar ∉ q.1 ∧ nulChar ∉ q.2 :=
      fun q hq => h q (List.mem_cons_of_mem p hq)
    have e1 : sendHeadersBuffer (p :: ps) =
        p.1 ++ nulChar :: (p.2 ++ nulChar :: sendHeadersBuffer ps) := by
      simp [sendHeadersBuffer, serializeHeaderPairs]
    rw [e1, splitNul_append_nul _ _ hp.1, splitNul_append_nul _ _ hp.2, ih hps]
    simp [fieldList]

theorem dropTrailing_sentinel (xs : List Str) :
    dropTrailingEmptyFields (xs ++ [['_'], ['_'], []]) = xs ++ [['_'], ['_']] := by
  simp [dropTrailingEmptyFields, List.dropWhile]

theorem fieldList_length (pairs : List (Str × Str)) :
    (fieldList pairs).length = 2 * pairs.length := by
  induction pairs with
  | nil => simp [fieldList]
  | cons p ps ih =>
    simp only [fieldList, List.length_cons, ih, List.length_cons]
    omega

theorem unflattenPairs_fieldList (pairs : List (Str × Str)) :
    unflattenPairs (fieldList pairs) = pairs := by
  induction pairs with
  | nil => simp [fieldList, unflattenPairs]
  | cons p ps ih => simp [fieldList, unflattenPairs, ih]

theorem dropLast_two (xs : List Str) (a b : Str) :
    ((xs ++ [a, b]).dropLast).dropLast = xs := by
  have e : xs ++ [a, b] = (xs ++ [a]) ++ [b] := by simp
  rw [e, List.dropLast_concat, List.dropLast_concat]

/-- C1: for every finite sequence of (name, value) header pairs over
NUL-free C strings (values allowed to be empty), the buffer built by
`sendHeaders` — each name and each value followed by one NUL byte, plus the
`"_\0_\0"` sentinel — re-parsed by the reference splitter-on-NUL yields an
even number of fields, and dropping the two trailing sentinel fields
recovers exactly the original pairs in order. -/
theorem sendHeaders_roundtrip (pairs : List (Str × Str))
    (h : ∀ p ∈ pairs, nulChar ∉ p.1 ∧ nulChar ∉ p.2) :
    (referenceSplit (sendHeadersBuffer pairs)).length % 2 = 0 ∧
    unflattenPairs ((referenceSplit (sendHeadersBuffer pairs)).dropLast.dropLast) = pairs := by
  have e : referenceSplit (sendHeadersBuffer pairs) = fieldList pairs ++ [['_'], ['_']] := by
    rw [referenceSplit, splitNul_sendHeadersBuffer pairs h, dropTrailing_sentinel]
  constructor
  · rw [e]
    simp only [List.length_append, fieldList_length, List.length_cons, List.length_nil]
    omega
  · rw [e, dropLast_two, unflattenPairs_fieldList]

/-- Witness for C1 at a concrete header list containing an empty value. -/
theorem sendHeaders_roundtrip_witness :
    (referenceSplit (sendHeadersBuffer [(str "X", str "y"), (str "Z", [])])).length % 2 = 0 ∧
    unflattenPairs ((referenceSplit
        (sendHeadersBuffer [(str "X", str "y"), (str "Z", [])])).dropLast.dropLast) =
      [(str "X", str "y"), (str "Z", [])] :=
  sendHeaders_roundtrip [(str "X", str "y"), (str "Z", [])] (by decide)


/-! ### The resolver contract (claims about `getBaseURI`) -/

theorem matchesBaseURI_eq_spec (u b : Str) :
    matchesBaseURI u b = specMatchesBase u b := by
  unfold matchesBaseURI specMatchesBase
  by_cases h2 : u = b
  · subst h2
    simp
  · have h2' : ¬(b = u) := fun h => h2 h.symm
    by_cases h3 : b.length < u.length <;>
      by_cases h4 : u.get? b.length = some '/' <;>
        cases h5 : b.isPrefixOf u <;>
          simp [h2, h2', h3, h4, h5]

theorem find?_matches_eq (u : Str) (l : List Str) :
    l.find? (fun base => matchesBaseURI u base) =
      l.find? (fun base => specMatchesBase u base) := by
  have h : (fun base => matchesBaseURI u base) = (fun base => specMatchesBase u base) :=
    funext fun b => matchesBaseURI_eq_spec u b
  rw [h]

/-- C5 counterexample: the claim quantifies over every request URI, but for
the URI `"*"` (as sent by `OPTIONS *`) with `"/"` a configured Rails base URI
— which the claim's match condition accepts, since the base equals `"/"` —
`getBaseURI` returns NULL without consulting anything, while the claimed
resolver returns that base. -/
theorem baseURI_resolver_cex :
    getBaseURI rootRailsConfig starMapper = none ∧
    resolveBaseURISpec rootRailsConfig starMapper = some (str "/", AppType.rails) := by
  decide

/-- C5 (amended: restricted to request URIs that begin with `'/'`; other
URIs are rejected up front, see the non-slash claim): the resolver returns
the first configured Rails base URI that matches (base equals `"/"`, or
equals the whole URI, or is a proper prefix with the next character `'/'`),
failing that the first matching Rack base URI, failing that auto-detection
probes for Rails, then Rack, then WSGI and returns `"/"` with that type,
otherwise NULL. -/
theorem baseURI_resolver_spec (config : DirConfig) (env : MapperEnv)
    (h : env.uri.get? 0 = some '/') :
    getBaseURI config env = resolveBaseURISpec config env := by
  have hne : ¬(env.uri.length = 0 ∨ env.uri.get? 0 ≠ some '/') := by
    push_neg
    refine ⟨?_, h⟩
    intro hl
    rw [List.length_eq_zero] at hl
    rw [hl] at h
    simp at h
  rw [getBaseURI, if_neg hne, resolveBaseURISpec, find?_matches_eq, find?_matches_eq]

/-- Witness for the amended C5 at a concrete request. -/
theorem baseURI_resolver_spec_witness :
    getBaseURI subdirRailsConfig subdirMapper = resolveBaseURISpec subdirRailsConfig subdirMapper :=
  baseURI_resolver_spec subdirRailsConfig subdirMapper (by decide)

/-- C10: a request whose URI is empty or does not begin with `'/'` resolves
to no base URI — whatever the configured base URIs and whatever the
directory probes would report, so nothing is consulted or probed — and the
dispatcher declines it without performing any session action. -/
theorem nonSlash_uri_declined (renv : RequestEnv)
    (h : renv.mapper.uri = [] ∨ renv.mapper.uri.get? 0 ≠ some '/') :
    getBaseURI renv.config renv.mapper = none ∧
    handleRequest renv = (HandleResult.declined, []) := by
  have hcond : renv.mapper.uri.length = 0 ∨ renv.mapper.uri.get? 0 ≠ some '/' := by
    rcases h with h | h
    · exact Or.inl (by simp [h])
    · exact Or.inr h
  have hbase : getBaseURI renv.config renv.mapper = none := by
    rw [getBaseURI, if_pos hcond]
  exact ⟨hbase, by rw [handleRequest, hbase]⟩

/-- Witness for C10: the URI `"*"` is declined even though a Rails base URI
is configured and every auto-detection probe reports a valid directory. -/
theorem nonSlash_uri_declined_witness :
    getBaseURI starRequestEnv.config starRequestEnv.mapper = none ∧
    handleRequest starRequestEnv = (HandleResult.declined, []) :=
  nonSlash_uri_declined starRequestEnv (by decide)

/-- C6: when a base URI was resolved and the document root is known,
`getPublicDirectory` returns the document root with one trailing `'/'`
stripped (when present) and the base URI appended when it is not `"/"`; it
returns the empty string when no base URI was resolved or the document root
is empty. -/
theorem publicDirectory_spec (config : DirConfig) (env : MapperEnv) :
    (∀ b t, getBaseURI config env = some (b, t) → env.documentRoot ≠ [] →
      getPublicDirectory config env =
        (if env.documentRoot.get? (env.documentRoot.length - 1) = some '/' then
          env.documentRoot.dropLast
        else
          env.documentRoot) ++
        (if b = str "/" then [] else b)) ∧
    (getBaseURI config env = none → getPublicDirectory config env = []) ∧
    (env.documentRoot = [] → getPublicDirectory config env = []) := by
  refine ⟨?_, ?_, ?_⟩
  · intro b t hb hdoc
    have hlen : env.documentRoot.length > 0 := List.length_pos.mpr hdoc
    simp only [getPublicDirectory, hb, if_pos hlen]
    by_cases hslash : env.documentRoot.get? (env.documentRoot.length - 1) = some '/' <;>
      by_cases hbase : b = str "/" <;>
        simp [hslash, hbase]
  · intro hb
    simp [getPublicDirectory, hb]
  · intro hd
    rw [getPublicDirectory]
    cases getBaseURI config env with
    | none => rfl
    | some p => simp [hd]

/-- Witness for C6: a document root with a trailing slash and a non-root
base URI. -/
theorem publicDirectory_spec_witness :
    getPublicDirectory subdirRailsConfig subdirMapper =
      (if subdirMapper.documentRoot.get? (subdirMapper.documentRoot.length - 1) = some '/' then
        subdirMapper.documentRoot.dropLast
      else
        subdirMapper.documentRoot) ++
      (if str "/rails" = str "/" then [] else str "/rails") :=
  (publicDirectory_spec subdirRailsConfig subdirMapper).1 (str "/rails") AppType.rails
    (by decide) (by decide)

/-! ### The static-file shortcut (`mapToStorage` and the decline guard) -/

/-- C3 counterexample: a non-GET request (POST) whose resolved filesystem
path exists, under a resolved base URI, is declined — served statically —
rather than forwarded to the application as the claim states. -/
theorem staticShortcut_nonGet_cex :
    postExistingFileMapEnv.isGetRequest = false ∧
    postExistingFileMapEnv.fileExists postExistingFileMapEnv.filename = true ∧
    (getBaseURI postExistingFileMapEnv.config postExistingFileMapEnv.mapper).isSome = true ∧
    (mapToStorage postExistingFileMapEnv).forwardToApplication = false ∧
    (mapToStorage postExistingFileMapEnv).returnValue = MapReturn.declined := by
  decide

/-- C3 (amended: the existing-file decline applies to every request method,
not only GET; only the `.html`/`index.html` rewrite is GET-only, and a
non-GET request proceeds to the application exactly when the resolved path
does not exist): under a resolved base URI, an existing file is declined for
any method; for GET, an existing `.html`/`index.html` variant rewrites the
filename and declines, and otherwise the request is forwarded; a non-GET
request with no existing file is forwarded; and `handleRequest` declines any
request whose file exists. -/
theorem staticShortcut_behavior (env : MapEnv) (b : Str) (t : AppType)
    (hb : getBaseURI env.config env.mapper = some (b, t)) :
    (env.fileExists env.filename = true →
      mapToStorage env =
        { forwardToApplication := false, filename := env.filename,
          returnValue := MapReturn.declined }) ∧
    (env.fileExists env.filename = false → env.isGetRequest = true →
      env.fileExists (staticHtmlFile env.filename) = true →
      mapToStorage env =
        { forwardToApplication := false, filename := staticHtmlFile env.filename,
          returnValue := MapReturn.declined }) ∧
    (env.fileExists env.filename = false → env.isGetRequest = true →
      env.fileExists (staticHtmlFile env.filename) = false →
      (mapToStorage env).forwardToApplication = true) ∧
    (env.fileExists env.filename = false → env.isGetRequest = false →
      (mapToStorage env).forwardToApplication = true) ∧
    (∀ renv : RequestEnv, ∀ f, renv.filename = some f →
      renv.fileExists f = true → (handleRequest renv).1 = HandleResult.declined) := by
  refine ⟨?_, ?_, ?_, ?_, ?_⟩
  · intro hfe
    simp [mapToStorage, hb, hfe]
  · intro hfe hget hhtml
    simp [mapToStorage, hb, hfe, hget, hhtml]
  · intro hfe hget hhtml
    simp [mapToStorage, hb, hfe, hget, hhtml]
  · intro hfe hget
    simp [mapToStorage, hb, hfe, hget]
  · intro renv f hf hfe
    rw [handleRequest]
    cases hbb : getBaseURI renv.config renv.mapper with
    | none => rfl
    | some p => simp [hf, hfe]

/-- Witness for the amended C3: a non-GET request with no existing file is
forwarded to the application. -/
theorem staticShortcut_behavior_witness :
    (mapToStorage postMissingFileMapEnv).forwardToApplication = true :=
  (staticShortcut_behavior postMissingFileMapEnv (str "/") AppType.rails
    (by decide)).2.2.2.1 (by decide) (by decide)


/-! ### The request-forwarding state machine (`handleRequest`) -/

theorem handleRequest_guards (env : RequestEnv) (b : Str) (t : AppType) (f : Str)
    (hb : getBaseURI env.config env.mapper = some (b, t))
    (hf : env.filename = some f)
    (hfe : env.fileExists f = false)
    (hpe : env.publicDirFsError = none)
    (hpd : getPublicDirectory env.config env.mapper ≠ [])
    (hs : env.setupClientBlockStatus = 0) :
    handleRequest env =
      if env.shouldClientBlock ∧ env.contentLength > uploadAccelerationThreshold then
        match receiveRequestBody env with
        | Except.error _ => (HandleResult.httpStatus 500 none, [])
        | Except.ok data => afterUpload env (some data) [Event.receiveBody data]
      else
        afterUpload env none [] := by
  simp only [handleRequest, hb, hf, hfe, hpe, hpd, hs, Bool.false_eq_true, if_false,
    ne_eq, not_true_eq_false, ite_false]

theorem receiveRequestBody_ok (env : RequestEnv)
    (hre : env.clientReadError = false)
    (hlen : (env.clientBody.length : Int) = env.contentLength) :
    receiveRequestBody env = Except.ok env.clientBody := by
  simp [receiveRequestBody, hre, hlen]

theorem afterUpload_snd_starts (env : RequestEnv) (u : Option Str) (evs : List Event) :
    ∃ rest, (afterUpload env u evs).2 = evs ++ Event.poolGet :: rest := by
  cases hp : env.pool with
  | spawnError p => cases p <;> exact ⟨[], by simp [afterUpload, hp]⟩
  | busy => exact ⟨[], by simp [afterUpload, hp]⟩
  | ok pid =>
    by_cases hcb : env.shouldClientBlock
    · cases u with
      | some data =>
        exact ⟨[Event.sendHeadersEv, Event.sendBodyFromTempFile data, Event.shutdownWriter],
          by simp [afterUpload, hp, hcb]⟩
      | none =>
        by_cases hre : env.clientReadError
        · exact ⟨[Event.sendHeadersEv, Event.sendBodyFromClient],
            by simp [afterUpload, hp, hcb, hre]⟩
        · exact ⟨[Event.sendHeadersEv, Event.sendBodyFromClient, Event.shutdownWriter],
            by simp [afterUpload, hp, hcb, hre]⟩
    · exact ⟨[Event.sendHeadersEv, Event.shutdownWriter], by simp [afterUpload, hp, hcb]⟩

theorem afterUpload_fst_spawnErrorPage (env : RequestEnv) (page : Str)
    (hp : env.pool = PoolOutcome.spawnError (some page))
    (u : Option Str) (evs : List Event) :
    (afterUpload env u evs).1 = HandleResult.okWithBody contentTypeHtmlLower page := by
  simp [afterUpload, hp]

theorem afterUpload_fst_busy (env : RequestEnv)
    (hp : env.pool = PoolOutcome.busy) (u : Option Str) (evs : List Event) :
    (afterUpload env u evs).1 = HandleResult.httpStatus 503 (some busyMessage) := by
  simp [afterUpload, hp]

theorem uploadThreshold_value : uploadAccelerationThreshold = (8192 : Int) := by
  norm_num [uploadAccelerationThreshold]

/-- C2: when the host signals an expected body and the advertised
Content-Length exceeds 8192 bytes, `handleRequest` writes the whole request
body to a temporary file before `ApplicationPool::get` is called; when the
expected body is 8192 bytes or fewer, no temporary file is created and the
body is streamed to the session only after the session is acquired. -/
theorem upload_buffering_policy (env : RequestEnv) (b : Str) (t : AppType) (f : Str)
    (hb : getBaseURI env.config env.mapper = some (b, t))
    (hf : env.filename = some f)
    (hfe : env.fileExists f = false)
    (hpe : env.publicDirFsError = none)
    (hpd : getPublicDirectory env.config env.mapper ≠ [])
    (hs : env.setupClientBlockStatus = 0) :
    (env.shouldClientBlock = true → env.contentLength > 8192 →
      env.clientReadError = false → (env.clientBody.length : Int) = env.contentLength →
      ∃ rest, (handleRequest env).2 =
        Event.receiveBody env.clientBody :: Event.poolGet :: rest) ∧
    (env.shouldClientBlock = true → env.contentLength ≤ 8192 →
      (∀ d, Event.receiveBody d ∉ (handleRequest env).2) ∧
      (∀ pid, env.pool = PoolOutcome.ok pid → env.clientReadError = false →
        (handleRequest env).2 =
          [Event.poolGet, Event.sendHeadersEv, Event.sendBodyFromClient,
            Event.shutdownWriter])) := by
  have hg := handleRequest_guards env b t f hb hf hfe hpe hpd hs
  constructor
  · intro hcb hcl hre hlen
    have hcond : env.shouldClientBlock ∧ env.contentLength > uploadAccelerationThreshold :=
      ⟨by rw [hcb], by rw [uploadThreshold_value]; exact hcl⟩
    rw [hg, if_pos hcond]
    simp only [receiveRequestBody_ok env hre hlen]
    obtain ⟨rest, hrest⟩ :=
      afterUpload_snd_starts env (some env.clientBody) [Event.receiveBody env.clientBody]
    exact ⟨rest, by rw [hrest]; simp⟩
  · intro hcb hcl
    have hnot : ¬(env.shouldClientBlock ∧ env.contentLength > uploadAccelerationThreshold) := by
      rintro ⟨-, hgt⟩
      rw [uploadThreshold_value] at hgt
      omega
    rw [hg, if_neg hnot]
    constructor
    · intro d
      cases hp : env.pool with
      | spawnError p => cases p <;> simp [afterUpload, hp]
      | busy => simp [afterUpload, hp]
      | ok pid =>
        by_cases hcb2 : env.shouldClientBlock <;> by_cases hre : env.clientReadError <;>
          simp [afterUpload, hp, hcb2, hre]
    · intro pid hp hre
      simp [afterUpload, hp, hcb, hre]

/-- Witness for C2 at an 8193-byte upload: the whole body reaches the temp
file before the pool is asked for a session. -/
theorem upload_buffering_policy_witness :
    ∃ rest, (handleRequest bigUploadRequestEnv).2 =
      Event.receiveBody bigUploadRequestEnv.clientBody :: Event.poolGet :: rest :=
  (upload_buffering_policy bigUploadRequestEnv (str "/") AppType.rails
      (str "/var/www/upload") (by decide) (by decide) (by decide) (by decide)
      (by decide) (by decide)).1
    (by decide) (by decide) (by decide)
    (by show ((List.replicate 8193 (Char.ofNat 97)).length : Int) = ((8193 : Int))
        rw [List.length_replicate]
        norm_num)

/-- C4 counterexample: at a concrete filesystem error raised while
classifying the request, the module's response status is 200 (the handler
returns OK after writing the diagnostic itself), not the claimed 500. -/
theorem fsError_status_cex :
    fsErrorRequestEnv.publicDirFsError = some epermException ∧
    responseStatus (handleRequest fsErrorRequestEnv).1 = 200 ∧
    ¬ responseStatus (handleRequest fsErrorRequestEnv).1 = 500 := by
  decide

/-- C4 (amended: the diagnostic is served with handler status OK — HTTP 200,
because returning 500 would make Apache replace the body — instead of the
claimed 500): whenever classifying the request raises a filesystem error,
the dispatcher responds with a structured text/html diagnostic that names
the escaped file name and error message, and when the errno code is EPERM
the diagnostic additionally contains the hint about Apache read
permissions. -/
theorem fsError_report (env : RequestEnv) (b : Str) (t : AppType) (f : Str)
    (e : FileSystemExceptionData)
    (hb : getBaseURI env.config env.mapper = some (b, t))
    (hf : env.filename = some f)
    (hfe : env.fileExists f = false)
    (he : env.publicDirFsError = some e) :
    handleRequest env =
      (HandleResult.okWithBody contentTypeHtmlUpper (reportFileSystemErrorBody e), []) ∧
    responseStatus (handleRequest env).1 = 200 ∧
    (escapeHtml e.filename <:+: reportFileSystemErrorBody e) ∧
    (escapeHtml e.message <:+: reportFileSystemErrorBody e) ∧
    (e.code = EPERM → fileSystemErrorHint <:+: reportFileSystemErrorBody e) := by
  have hres : handleRequest env =
      (HandleResult.okWithBody contentTypeHtmlUpper (reportFileSystemErrorBody e), []) := by
    simp only [handleRequest, hb, hf, hfe, he, Bool.false_eq_true, if_false, ite_false]
  refine ⟨hres, by rw [hres]; rfl, ?_, ?_, ?_⟩
  · exact ⟨str "<h1>Passenger error #2</h1>\n" ++
      str "An error occurred while trying to access " ++ [apostrophe],
      [apostrophe] ++ str ": " ++ escapeHtml e.message ++
        (if e.code = EPERM then fileSystemErrorHint else []),
      by simp [reportFileSystemErrorBody]⟩
  · exact ⟨str "<h1>Passenger error #2</h1>\n" ++
      str "An error occurred while trying to access " ++ [apostrophe] ++
      escapeHtml e.filename ++ [apostrophe] ++ str ": ",
      (if e.code = EPERM then fileSystemErrorHint else []),
      by simp [reportFileSystemErrorBody]⟩
  · intro hcode
    exact ⟨str "<h1>Passenger error #2</h1>\n" ++
      str "An error occurred while trying to access " ++ [apostrophe] ++
      escapeHtml e.filename ++ [apostrophe] ++ str ": " ++ escapeHtml e.message,
      [],
      by simp [reportFileSystemErrorBody, hcode]⟩

/-- Witness for the amended C4 at a concrete EPERM error. -/
theorem fsError_report_witness :
    handleRequest fsErrorRequestEnv =
      (HandleResult.okWithBody contentTypeHtmlUpper
        (reportFileSystemErrorBody epermException), []) ∧
    fileSystemErrorHint <:+: reportFileSystemErrorBody epermException :=
  ⟨(fsError_report fsErrorRequestEnv (str "/") AppType.rails (str "/var/www/upload")
      epermException (by decide) (by decide) (by decide) (by decide)).1,
   (fsError_report fsErrorRequestEnv (str "/") AppType.rails (str "/var/www/upload")
      epermException (by decide) (by decide) (by decide) (by decide)).2.2.2.2 (by decide)⟩

/-- C7: whenever `ApplicationPool::get` throws a `SpawnException` that
carries an error page, `handleRequest` sets the response content type to
text/html and writes the error page verbatim as the response body,
completing the request with handler status OK (HTTP 200) rather than
500. -/
theorem spawnError_errorPage_response (env : RequestEnv) (b : Str) (t : AppType)
    (f : Str) (page : Str)
    (hb : getBaseURI env.config env.mapper = some (b, t))
    (hf : env.filename = some f)
    (hfe : env.fileExists f = false)
    (hpe : env.publicDirFsError = none)
    (hpd : getPublicDirectory env.config env.mapper ≠ [])
    (hs : env.setupClientBlockStatus = 0)
    (hreach : env.shouldClientBlock ∧ env.contentLength > uploadAccelerationThreshold →
      env.clientReadError = false ∧ (env.clientBody.length : Int) = env.contentLength)
    (hp : env.pool = PoolOutcome.spawnError (some page)) :
    (handleRequest env).1 = HandleResult.okWithBody contentTypeHtmlLower page ∧
    responseStatus (handleRequest env).1 = 200 := by
  have hg := handleRequest_guards env b t f hb hf hfe hpe hpd hs
  have h1 : (handleRequest env).1 = HandleResult.okWithBody contentTypeHtmlLower page := by
    by_cases hc : env.shouldClientBlock ∧ env.contentLength > uploadAccelerationThreshold
    · obtain ⟨hre, hlen⟩ := hreach hc
      rw [hg, if_pos hc]
      simp only [receiveRequestBody_ok env hre hlen]
      exact afterUpload_fst_spawnErrorPage env page hp _ _
    · rw [hg, if_neg hc]
      exact afterUpload_fst_spawnErrorPage env page hp _ _
  exact ⟨h1, by rw [h1]; rfl⟩

/-- Witness for C7 at a concrete spawn error page. -/
theorem spawnError_errorPage_response_witness :
    (handleRequest spawnErrorPageRequestEnv).1 =
      HandleResult.okWithBody contentTypeHtmlLower (str "<html>spawn failed</html>") ∧
    responseStatus (handleRequest spawnErrorPageRequestEnv).1 = 200 :=
  spawnError_errorPage_response spawnErrorPageRequestEnv (str "/") AppType.rails
    (str "/var/www/upload") (str "<html>spawn failed</html>")
    (by decide) (by decide) (by decide) (by decide) (by decide) (by decide)
    (fun h => absurd h (by decide)) (by decide)

/-- C8: whenever `ApplicationPool::get` throws `BusyException`,
`handleRequest` responds with HTTP 503 Service Unavailable carrying the
retry-later message registered via `ap_custom_response`. -/
theorem busyError_response (env : RequestEnv) (b : Str) (t : AppType) (f : Str)
    (hb : getBaseURI env.config env.mapper = some (b, t))
    (hf : env.filename = some f)
    (hfe : env.fileExists f = false)
    (hpe : env.publicDirFsError = none)
    (hpd : getPublicDirectory env.config env.mapper ≠ [])
    (hs : env.setupClientBlockStatus = 0)
    (hreach : env.shouldClientBlock ∧ env.contentLength > uploadAccelerationThreshold →
      env.clientReadError = false ∧ (env.clientBody.length : Int) = env.contentLength)
    (hp : env.pool = PoolOutcome.busy) :
    (handleRequest env).1 = HandleResult.httpStatus 503 (some busyMessage) ∧
    responseStatus (handleRequest env).1 = 503 := by
  have hg := handleRequest_guards env b t f hb hf hfe hpe hpd hs
  have h1 : (handleRequest env).1 = HandleResult.httpStatus 503 (some busyMessage) := by
    by_cases hc : env.shouldClientBlock ∧ env.contentLength > uploadAccelerationThreshold
    · obtain ⟨hre, hlen⟩ := hreach hc
      rw [hg, if_pos hc]
      simp only [receiveRequestBody_ok env hre hlen]
      exact afterUpload_fst_busy env hp _ _
    · rw [hg, if_neg hc]
      exact afterUpload_fst_busy env hp _ _
  exact ⟨h1, by rw [h1]; rfl⟩

/-- Witness for C8 at a concrete busy pool. -/
theorem busyError_response_witness :
    (handleRequest busyRequestEnv).1 = HandleResult.httpStatus 503 (some busyMessage) ∧
    responseStatus (handleRequest busyRequestEnv).1 = 503 :=
  busyError_response busyRequestEnv (str "/") AppType.rails (str "/var/www/upload")
    (by decide) (by decide) (by decide) (by decide) (by decide) (by decide)
    (fun h => absurd h (by decide)) (by decide)


/-! ### The CGI variable table (claims about `sendHeaders` construction) -/

theorem addHeader_eq (t : List (Str × Str)) (n v : Option Str) :
    addHeader t n v = t ++ (presentPair (n, v)).toList := by
  cases n <;> cases v <;> simp [addHeader, presentPair]

theorem foldl_addHeader_filterMap (l : List (Option Str × Option Str))
    (acc : List (Str × Str)) :
    l.foldl (fun t kv => addHeader t kv.1 kv.2) acc = acc ++ l.filterMap presentPair := by
  induction l generalizing acc with
  | nil => simp
  | cons kv rest ih =>
    obtain ⟨k1, k2⟩ := kv
    rw [List.foldl_cons, ih]
    cases k1 with
    | none => simp [addHeader, presentPair]
    | some n =>
      cases k2 with
      | none => simp [addHeader, presentPair]
      | some v => simp [addHeader, presentPair]

theorem foldl_headers_eq (l : List (Option Str × Option Str)) (acc : List (Str × Str)) :
    l.foldl
      (fun t kv =>
        match kv.1 with
        | some k => addHeader t (some (http2env k)) kv.2
        | none => t)
      acc =
    (l.map (fun kv => (kv.1.map http2env, kv.2))).foldl
      (fun t kv => addHeader t kv.1 kv.2) acc := by
  induction l generalizing acc with
  | nil => rfl
  | cons kv rest ih =>
    obtain ⟨k1, k2⟩ := kv
    rw [List.map_cons, List.foldl_cons, List.foldl_cons]
    cases k1 with
    | none => exact ih acc
    | some k => exact ih (addHeader acc (some (http2env k)) k2)

theorem filterMap_cons_toList (f : α → Option β) (a : α) (l : List α) :
    List.filterMap f (a :: l) = (f a).toList ++ List.filterMap f l := by
  cases h : f a <;> simp [List.filterMap_cons, h]

theorem buildHeaderTable_eq (env : CgiEnv) (baseURI : Str) :
    buildHeaderTable env baseURI = (consultedVariables env baseURI).filterMap presentPair := by
  rw [buildHeaderTable, consultedVariables, foldl_headers_eq]
  rw [foldl_addHeader_filterMap, foldl_addHeader_filterMap]
  by_cases hbase : baseURI = str "/"
  · simp [hbase, addHeader_eq, filterMap_cons_toList, List.filterMap_append]
  · simp [hbase, addHeader_eq, filterMap_cons_toList, List.filterMap_append]

theorem mem_buildHeaderTable (env : CgiEnv) (baseURI : Str) (n v : Str) :
    (n, v) ∈ buildHeaderTable env baseURI ↔
      (some n, some v) ∈ consultedVariables env baseURI := by
  rw [buildHeaderTable_eq, List.mem_filterMap]
  constructor
  · rintro ⟨a, ha, hpa⟩
    obtain ⟨a1, a2⟩ := a
    cases a1 with
    | none => simp [presentPair] at hpa
    | some x =>
      cases a2 with
      | none => simp [presentPair] at hpa
      | some y =>
        simp only [presentPair, Option.some.injEq, Prod.mk.injEq] at hpa
        obtain ⟨rfl, rfl⟩ := hpa
        exact ha
  · intro ha
    exact ⟨(some n, some v), ha, rfl⟩

theorem http2env_head? (k : Str) : (http2env k).head? = some 'H' := rfl

theorem http2env_get4? (k : Str) : (http2env k).get? 4 = some '_' := rfl

theorem http2env_ne_remoteUser (k : Str) : http2env k ≠ str "REMOTE_USER" := by
  intro h
  have hh := congrArg List.head? h
  rw [http2env_head?] at hh
  exact absurd hh (by decide)

theorem http2env_ne_https (k : Str) : http2env k ≠ str "HTTPS" := by
  intro h
  have hh := congrArg (fun l => List.get? l 4) h
  simp only at hh
  rw [http2env_get4?] at hh
  exact absurd hh (by decide)

theorem http2env_ne_contentType (k : Str) : http2env k ≠ str "CONTENT_TYPE" := by
  intro h
  have hh := congrArg List.head? h
  rw [http2env_head?] at hh
  exact absurd hh (by decide)

/-- C9: the CGI variable table built by `sendHeaders` contains exactly the
consulted variables whose name and value are both available — every
NULL-valued candidate is silently omitted — so in particular `REMOTE_USER`,
`HTTPS` and `CONTENT_TYPE` never appear when no user is authenticated, the
subprocess environment lacks `HTTPS`, and the request has no Content-Type
header (and the subprocess environment does not inject those names). -/
theorem cgi_omits_null_values (env : CgiEnv) (baseURI : Str)
    (huser : env.user = none) (hhttps : env.https = none) (hct : env.contentType = none)
    (hsub : ∀ kv ∈ env.subprocessEnv,
      kv.1 ≠ some (str "REMOTE_USER") ∧ kv.1 ≠ some (str "HTTPS") ∧
      kv.1 ≠ some (str "CONTENT_TYPE")) :
    buildHeaderTable env baseURI =
      (consultedVariables env baseURI).filterMap presentPair ∧
    (∀ v, (str "REMOTE_USER", v) ∉ buildHeaderTable env baseURI) ∧
    (∀ v, (str "HTTPS", v) ∉ buildHeaderTable env baseURI) ∧
    (∀ v, (str "CONTENT_TYPE", v) ∉ buildHeaderTable env baseURI) := by
  refine ⟨buildHeaderTable_eq env baseURI, ?_, ?_, ?_⟩
  · intro v hv
    rw [mem_buildHeaderTable] at hv
    by_cases hbase : baseURI = str "/" <;>
      simp +decide only [consultedVariables, List.mem_append, List.mem_cons,
        List.mem_map, List.not_mem_nil, or_false, false_or, false_and, and_false,
        Prod.mk.injEq, Option.some.injEq, huser, hhttps, hct, hbase,
        if_true, if_false, ite_true, ite_false,
        Option.map_eq_some', ne_eq, reduceCtorEq] at hv <;>
      (rcases hv with ⟨a, ha, ⟨⟨k, hk1, hkeq⟩, hk2⟩⟩ | hmem
       · exact http2env_ne_remoteUser k hkeq
       · exact (hsub _ hmem).1 rfl)
  · intro v hv
    rw [mem_buildHeaderTable] at hv
    by_cases hbase : baseURI = str "/" <;>
      simp +decide only [consultedVariables, List.mem_append, List.mem_cons,
        List.mem_map, List.not_mem_nil, or_false, false_or, false_and, and_false,
        Prod.mk.injEq, Option.some.injEq, huser, hhttps, hct, hbase,
        if_true, if_false, ite_true, ite_false,
        Option.map_eq_some', ne_eq, reduceCtorEq] at hv <;>
      (rcases hv with ⟨a, ha, ⟨⟨k, hk1, hkeq⟩, hk2⟩⟩ | hmem
       · exact http2env_ne_https k hkeq
       · exact (hsub _ hmem).2.1 rfl)
  · intro v hv
    rw [mem_buildHeaderTable] at hv
    by_cases hbase : baseURI = str "/" <;>
      simp +decide only [consultedVariables, List.mem_append, List.mem_cons,
        List.mem_map, List.not_mem_nil, or_false, false_or, false_and, and_false,
        Prod.mk.injEq, Option.some.injEq, huser, hhttps, hct, hbase,
        if_true, if_false, ite_true, ite_false,
        Option.map_eq_some', ne_eq, reduceCtorEq] at hv <;>
      (rcases hv with ⟨a, ha, ⟨⟨k, hk1, hkeq⟩, hk2⟩⟩ | hmem
       · exact http2env_ne_contentType k hkeq
       · exact (hsub _ hmem).2.2 rfl)

/-- Witness for C9 at a concrete request with no authenticated user, no
`HTTPS` entry and no Content-Type header. -/
theorem cgi_omits_null_values_witness :
    (str "REMOTE_USER", str "alice") ∉ buildHeaderTable anonymousCgiEnv (str "/") :=
  (cgi_omits_null_values anonymousCgiEnv (str "/") (by decide) (by decide) (by decide)
    (by decide)).2.1 (str "alice")

end Passenger
